import Mathlib

/-!
Shallow embedding of the Discord staff-point manager (point-ledger engine,
cooldown service, permission configuration, audit-log formatting and the
statement renderer), together with theorems settling the specification
claims about it.

Sources embedded:
- `src/config.js` (permission predicates and the points policy flags)
- `src/src/services/database.js` (getUserPoints, addPoints, removePoints,
  getPointsHistory; the PostgreSQL `modify_points` routine they call is not
  part of the repository sources and is modelled from the specification)
- the cooldown module (checkCooldown / setCooldown)
- the history statement generator (generateHistoryFile)
- the audit logger (sendAuditLog) and the points command handlers
  (handleAdd / handleRemove pre-store gate)
-/

namespace StaffPoints

/-! ### Small string helpers mirroring the JavaScript runtime -/

/-- JavaScript `String.prototype.padStart(n)` with the default space filler. -/
def padStart (s : String) (n : Nat) : String :=
  String.mk (List.replicate (n - s.length) ' ') ++ s

/-- JavaScript `String.prototype.padEnd(n)` with the default space filler. -/
def padEnd (s : String) (n : Nat) : String :=
  s ++ String.mk (List.replicate (n - s.length) ' ')

/-- Left-pad a numeral with zeros to the given width, as in ISO date fields. -/
def padZero (n : Nat) (w : Nat) : String :=
  String.mk (List.replicate (w - (toString n).length) '0') ++ toString n

/-! ### Civil date conversion (the `Date#toISOString` fragments the renderer
uses: a `YYYY-MM-DD` date and an `HH:MM` time, both UTC, from an epoch
timestamp in milliseconds). -/

/-- Days since the Unix epoch to a civil (year, month, day) triple, the
standard era-based conversion used by UTC calendar arithmetic. -/
def civilFromDays (days : Nat) : Nat × Nat × Nat :=
  let z := days + 719468
  let era := z / 146097
  let doe := z % 146097
  let yoe := (doe - doe / 1460 + doe / 36524 - doe / 146096) / 365
  let doy := doe - (365 * yoe + yoe / 4 - yoe / 100)
  let mp := (5 * doy + 2) / 153
  let d := doy - (153 * mp + 2) / 5 + 1
  let m := if mp < 10 then mp + 3 else mp - 9
  (if m ≤ 2 then era * 400 + yoe + 1 else era * 400 + yoe, m, d)

/-- The `YYYY-MM-DD` part of `new Date(ms).toISOString()`. -/
def isoDate (ms : Nat) : String :=
  let c := civilFromDays (ms / 86400000)
  padZero c.1 4 ++ "-" ++ padZero c.2.1 2 ++ "-" ++ padZero c.2.2 2

/-- The `HH:MM` part of `new Date(ms).toISOString()` (its `substring(0, 5)`
after the `T`). -/
def isoTime (ms : Nat) : String :=
  let msOfDay := ms % 86400000
  padZero (msOfDay / 3600000) 2 ++ ":" ++ padZero (msOfDay % 3600000 / 60000) 2

/-! ### Ledger data model -/

/-- The action type enumeration of the ledger engine. -/
inductive ActionType where
  | ADD
  | REMOVE
deriving DecidableEq

/-- One immutable row of the `points_history` table. -/
structure HistoryRecord where
  target_user_id : String
  action_by_user_id : String
  action_type : ActionType
  amount : Int
  before_points : Int
  after_points : Int
  reason : Option String
  created_at : Nat
deriving DecidableEq

/-- Association-list lookup, mirroring keyed row access and `Map.get`. -/
def mapGet {β : Type} (l : List (String × β)) (k : String) : Option β :=
  match l with
  | [] => none
  | (k', v) :: rest => if k' = k then some v else mapGet rest k

/-- Association-list upsert, mirroring keyed row update and `Map.set`. -/
def mapSet {β : Type} (l : List (String × β)) (k : String) (v : β) :
    List (String × β) :=
  match l with
  | [] => [(k, v)]
  | (k', v') :: rest =>
      if k' = k then (k, v) :: rest else (k', v') :: mapSet rest k v

/-- The persistent store: the `staff_points` balance table keyed by user id,
and the append-only `points_history` table (most recent insertion first). -/
structure Store where
  balances : List (String × Int)
  history : List HistoryRecord
deriving DecidableEq

/-- Current balance of a user; a missing row reads as 0. -/
def getBalance (s : Store) (uid : String) : Int :=
  (mapGet s.balances uid).getD 0

/-- Failure kinds of the ledger engine. -/
inductive LedgerError where
  | InvalidAmount
  | InsufficientBalance
deriving DecidableEq

/-- Modelled from the spec: the PostgreSQL routine `modify_points()` that
`database.js` invokes via RPC is not part of the repository sources (only its
callers are). Following section 4.1 of the specification: a non-positive
amount fails with `InvalidAmount`; the current balance (0 if absent) gives
`before`; ADD yields `after = before + amount` and REMOVE yields
`after = before - amount`; if the action is REMOVE, `allow_negative` is
false and `after < 0`, the call fails with `InsufficientBalance` before any
write; otherwise the balance write and the history append commit atomically
and `{before, after}` is returned. Failures leave the store untouched. -/
def modify_points (s : Store) (target actor : String) (ty : ActionType)
    (amount : Int) (allowNegative : Bool) (reason : Option String)
    (now : Nat) : Store × Except LedgerError (Int × Int) :=
  if amount ≤ 0 then
    (s, .error .InvalidAmount)
  else
    let before := getBalance s target
    let after := match ty with
      | .ADD => before + amount
      | .REMOVE => before - amount
    if ty = ActionType.REMOVE ∧ allowNegative = false ∧ after < 0 then
      (s, .error .InsufficientBalance)
    else
      ({ balances := mapSet s.balances target after,
         history :=
           { target_user_id := target
             action_by_user_id := actor
             action_type := ty
             amount := amount
             before_points := before
             after_points := after
             reason := reason
             created_at := now } :: s.history },
       .ok (before, after))

/-- `addPoints` of `database.js`: reject a non-positive amount before any
store access, then delegate to `modify_points` with action ADD and
`p_allow_negative = false`. -/
def addPoints (s : Store) (target actor : String) (amount : Int)
    (reason : Option String) (now : Nat) :
    Store × Except LedgerError (Int × Int) :=
  if amount ≤ 0 then
    (s, .error .InvalidAmount)
  else
    modify_points s target actor .ADD amount false reason now

/-- `removePoints` of `database.js`: reject a non-positive amount before any
store access, then delegate to `modify_points` with action REMOVE and the
caller-supplied `allow_negative` flag. -/
def removePoints (s : Store) (target actor : String) (amount : Int)
    (allowNegative : Bool) (reason : Option String) (now : Nat) :
    Store × Except LedgerError (Int × Int) :=
  if amount ≤ 0 then
    (s, .error .InvalidAmount)
  else
    modify_points s target actor .REMOVE amount allowNegative reason now

/-- `getUserPoints` of `database.js`: select the points row of the user with
`.single()`; the no-row outcome (`PGRST116`) returns 0 instead of raising,
and a present row returns its points (`data?.points || 0`). -/
def getUserPoints (s : Store) (uid : String) : Except LedgerError Int :=
  match mapGet s.balances uid with
  | none => .ok 0
  | some p => .ok p

/-- Newest-first comparison on history rows: descending `created_at`. -/
def newestFirst (a b : HistoryRecord) : Prop :=
  b.created_at ≤ a.created_at

instance : DecidableRel newestFirst := fun a b =>
  inferInstanceAs (Decidable (b.created_at ≤ a.created_at))

instance : IsTotal HistoryRecord newestFirst :=
  ⟨fun a b => Nat.le_total b.created_at a.created_at⟩

instance : IsTrans HistoryRecord newestFirst :=
  ⟨fun _ _ _ hab hbc => Nat.le_trans hbc hab⟩

/-- `getPointsHistory` of `database.js`: select the rows of the
`points_history` table whose `target_user_id` equals the user, ordered by
`created_at` descending. -/
def getPointsHistory (s : Store) (uid : String) : List HistoryRecord :=
  List.insertionSort newestFirst
    (s.history.filter (fun r => r.target_user_id == uid))

/-! ### Configuration and permission predicates (`src/config.js`) -/

/-- The `config.points` block. -/
structure PointsConfig where
  allowSelfAdd : Bool
  allowNegativeBalance : Bool
  minAmount : Int
  maxAmount : Int
deriving DecidableEq

/-- The fields of the bot configuration the points system consults. -/
structure Config where
  pointManagers : List String
  superAdmins : List String
  points : PointsConfig
deriving DecidableEq

/-- The literal configuration object of `src/config.js`. -/
def repoConfig : Config :=
  { pointManagers :=
      ["937194748618354708", "1232261529752178719", "1450450293547339808"]
    superAdmins := ["937194748618354708", "1306580945419370621"]
    points :=
      { allowSelfAdd := false
        allowNegativeBalance := false
        minAmount := 1
        maxAmount := 10000 } }

/-- `isSuperAdmin` of `config.js`. -/
def isSuperAdmin (cfg : Config) (uid : String) : Bool :=
  cfg.superAdmins.contains uid

/-- `isPointManager` of `config.js`. -/
def isPointManager (cfg : Config) (uid : String) : Bool :=
  cfg.pointManagers.contains uid || isSuperAdmin cfg uid

/-- `canManagePoints` of `config.js`: super admins manage anyone; point
managers manage others, and themselves only when `allowSelfAdd` is set. -/
def canManagePoints (cfg : Config) (uid targetUserId : String) : Bool :=
  if isSuperAdmin cfg uid then
    true
  else if isPointManager cfg uid then
    if uid = targetUserId then cfg.points.allowSelfAdd else true
  else
    false

/-! ### Cooldown service (the rate-limiting module) -/

/-- The process-wide cooldown store:
`Map<userId, Map<commandName, timestamp>>`. -/
def CooldownState : Type := List (String × List (String × Nat))

/-- `COOLDOWN_DURATION = 3000` milliseconds. -/
def COOLDOWN_DURATION : Nat := 3000

/-- The expiration timestamp recorded for a (user, command) pair, if any. -/
def lookupCooldown (st : CooldownState) (u c : String) : Option Nat :=
  (mapGet st u).bind (fun inner => mapGet inner c)

/-- `checkCooldown`: 0 when no entry exists for the user or the command, or
when the recorded expiration time has passed; otherwise the remaining
milliseconds rounded up to whole seconds (`Math.ceil(remainingMs / 1000)`). -/
def checkCooldown (st : CooldownState) (now : Nat) (u c : String) : Nat :=
  match mapGet st u with
  | none => 0
  | some inner =>
    match mapGet inner c with
    | none => 0
    | some expirationTime =>
      if now < expirationTime then (expirationTime - now + 999) / 1000 else 0

/-- `setCooldown`: create the inner map of the user when absent, then record
`now + COOLDOWN_DURATION` as the expiration of the command. -/
def setCooldown (st : CooldownState) (now : Nat) (u c : String) :
    CooldownState :=
  mapSet st u (mapSet ((mapGet st u).getD []) c (now + COOLDOWN_DURATION))

/-! ### Audit-log emission (`sendAuditLog` and its handler call sites) -/

/-- The message `sendAuditLog` builds from its destructured
`{type, targetUser, amount, executor}` payload and the clock. -/
def auditMessage (ty : ActionType) (targetUser : String) (amount : Int)
    (executor : String) (unixTimestamp : Nat) : String :=
  let emoji := if ty = ActionType.ADD then "<:up:1450773420362174605>"
    else "<:down:1450773447813632023>"
  let sign := if ty = ActionType.ADD then "+" else "-"
  let action := if ty = ActionType.ADD then "ADDED" else "REMOVED"
  String.intercalate "\n"
    [emoji ++ " **POINTS " ++ action ++ "**",
     "",
     "**User:** " ++ targetUser,
     "**Amount:** " ++ sign ++ toString amount,
     "**By:** <:admin:1450781535002427476> " ++ executor,
     "**Time:** <a:time:1450781529700565073> <t:" ++ toString unixTimestamp
       ++ ":F>",
     "",
     "───────────────────────────────"]

/-- The audit emission a points handler performs after a successful modify.
The handler has the before balance, the after balance and the reason in
scope, but the payload it hands to `sendAuditLog` carries only the action
type, the target, the amount and the executor. -/
def handlerAuditEmission (ty : ActionType) (targetUser : String)
    (amount : Int) (executor : String) (unixTimestamp : Nat)
    (beforeBalance afterBalance : Int) (reason : Option String) : String :=
  auditMessage ty targetUser amount executor unixTimestamp

/-! ### Points command handler gates (handleAdd / handleRemove)

Every check a handler performs before its first store access, in source
order: permission, self-action, cooldown. -/

/-- Outcome of the pre-store checks of a points handler. -/
inductive GateResult where
  | noPermission
  | selfDenied
  | cooldownWait (secs : Nat)
  | proceed
deriving DecidableEq

/-- The pre-store gate of `handleAdd`: `canManagePoints`, then the self-add
check against `config.points.allowSelfAdd`, then the `points_add`
cooldown. -/
def handleAddGate (cfg : Config) (st : CooldownState) (now : Nat)
    (executorId targetUserId : String) : GateResult :=
  if ¬ canManagePoints cfg executorId targetUserId then
    .noPermission
  else if executorId = targetUserId ∧ cfg.points.allowSelfAdd = false then
    .selfDenied
  else
    let cooldownRemaining := checkCooldown st now executorId "points_add"
    if cooldownRemaining > 0 then .cooldownWait cooldownRemaining
    else .proceed

/-- The pre-store gate of `handleRemove`: `canManagePoints`, then the
self-remove check against the same `config.points.allowSelfAdd` flag, then
the `points_remove` cooldown. -/
def handleRemoveGate (cfg : Config) (st : CooldownState) (now : Nat)
    (executorId targetUserId : String) : GateResult :=
  if ¬ canManagePoints cfg executorId targetUserId then
    .noPermission
  else if executorId = targetUserId ∧ cfg.points.allowSelfAdd = false then
    .selfDenied
  else
    let cooldownRemaining := checkCooldown st now executorId "points_remove"
    if cooldownRemaining > 0 then .cooldownWait cooldownRemaining
    else .proceed

/-! ### Statement renderer (`generateHistoryFile`) -/

/-- The Discord user fields the renderer reads. -/
structure DUser where
  username : String
  id : String
deriving DecidableEq

/-- The 67-character `=` ruler of the statement document. -/
def eqRule : String :=
  String.mk (List.replicate 67 '=')

/-- The 67-character `-` ruler of the statement document. -/
def dashRule : String :=
  String.mk (List.replicate 67 '-')

/-- The `GENERATED:` header line for a given clock reading. -/
def generatedLine (now : Nat) : String :=
  "GENERATED: " ++ isoDate now ++ " " ++ isoTime now ++ " UTC"

/-- The trailing closing-balance line for a given balance. -/
def closingBalanceLine (closingBalance : Int) : String :=
  "                     CLOSING BALANCE             "
    ++ padStart (toString closingBalance) 8

/-- The lines one history record contributes: the transaction line, a memo
line when a reason is present, and a blank spacer. -/
def historyEntryLines (record : HistoryRecord) : List String :=
  let dateStr := isoDate record.created_at
  let timeStr := isoTime record.created_at
  let action :=
    if record.action_type = ActionType.ADD then "[ADD]   " else "[REMOVE]"
  let amountStr :=
    if record.action_type = ActionType.ADD then
      padStart ("+" ++ toString record.amount) 7
    else
      padStart ("-" ++ toString record.amount) 7
  let balanceStr := padStart (toString record.after_points) 8
  let adminName := "User_" ++ (record.action_by_user_id.take 8)
  let main := dateStr ++ "   " ++ timeStr ++ "   " ++ padEnd adminName 15
    ++ " " ++ action ++ "   " ++ amountStr ++ "   " ++ balanceStr
  match record.reason with
  | some reason => [main, "                     Memo: " ++ reason, ""]
  | none => [main, ""]

/-- The full line sequence `generateHistoryFile` pushes: the header block
(with the generation timestamp as its fifth line), one entry block per
history record, and the closing-balance footer computed from the first
record of the sequence (0 when the sequence is empty). -/
def generateHistoryLines (user : DUser) (history : List HistoryRecord)
    (now : Nat) : List String :=
  [eqRule,
   "                  OFFICIAL POINTS STATEMENT",
   eqRule,
   "USER     : " ++ user.username ++ " (ID: " ++ user.id ++ ")",
   generatedLine now,
   eqRule,
   "DATE         TIME    ADMIN           ACTION      AMT    BALANCE",
   dashRule]
  ++ history.flatMap historyEntryLines
  ++ [dashRule,
      closingBalanceLine
        (match history with
         | [] => 0
         | record :: _ => record.after_points),
      eqRule,
      "* This is an automated record."]

/-- `generateHistoryFile`: the statement document, lines joined by `\n`. -/
def generateHistoryFile (user : DUser) (history : List HistoryRecord)
    (now : Nat) : String :=
  String.intercalate "\n" (generateHistoryLines user history now)

/-! ### Association-list lemmas shared by the claim proofs -/

theorem mapGet_mapSet_self {β : Type} (l : List (String × β)) (k : String)
    (v : β) : mapGet (mapSet l k v) k = some v := by
  induction l with
  | nil => simp [mapSet, mapGet]
  | cons p rest ih =>
    obtain ⟨k', v'⟩ := p
    by_cases h : k' = k
    · simp [mapSet, mapGet, h]
    · simp [mapSet, mapGet, h, ih]

theorem mapGet_mapSet_ne {β : Type} (l : List (String × β)) (k k' : String)
    (v : β) (h : k' ≠ k) : mapGet (mapSet l k v) k' = mapGet l k' := by
  induction l with
  | nil => simp [mapSet, mapGet, Ne.symm h]
  | cons p rest ih =>
    obtain ⟨k'', v'⟩ := p
    by_cases h2 : k'' = k
    · subst h2
      simp [mapSet, mapGet, Ne.symm h]
    · simp [mapSet, mapGet, h2, ih]

/-! ### Claim theorems -/

/-- C1: a `removePoints` call with `allow_negative = false` whose resulting
balance would be negative fails with `InsufficientBalance` and leaves the
store (balance table and history) exactly as it was; the same call with
`allow_negative = true` succeeds and returns the negative after balance. -/
theorem removePoints_insufficient_balance_policy (s : Store)
    (t a : String) (amt : Int) (r : Option String) (now : Nat)
    (hamt : 0 < amt) (hneg : getBalance s t - amt < 0) :
    removePoints s t a amt false r now =
      (s, .error .InsufficientBalance) ∧
    (removePoints s t a amt true r now).2 =
      .ok (getBalance s t, getBalance s t - amt) ∧
    getBalance s t - amt < 0 := by
  have h0 : ¬ amt ≤ 0 := not_le.mpr hamt
  refine ⟨?_, ?_, hneg⟩ <;> simp [removePoints, modify_points, h0, hneg]

/-- Witness for C1: balance 10, `removePoints` of 15 fails with
`InsufficientBalance` when negatives are disallowed and yields −5 when they
are allowed. -/
theorem removePoints_insufficient_balance_policy_witness :
    removePoints ⟨[("t", 10)], []⟩ "t" "a" 15 false none 0 =
      (⟨[("t", 10)], []⟩, .error .InsufficientBalance) ∧
    (removePoints ⟨[("t", 10)], []⟩ "t" "a" 15 true none 0).2 =
      .ok (getBalance ⟨[("t", 10)], []⟩ "t",
           getBalance ⟨[("t", 10)], []⟩ "t" - 15) ∧
    getBalance ⟨[("t", 10)], []⟩ "t" - 15 < 0 :=
  removePoints_insufficient_balance_policy ⟨[("t", 10)], []⟩ "t" "a" 15
    none 0 (by decide) (by decide)

/-- C2: every non-positive amount makes both `addPoints` and `removePoints`
fail with `InvalidAmount`, returning the store untouched (the check runs
before any store access); every amount of at least 1 passes the amount
validation, so neither call fails with `InvalidAmount`. -/
theorem amount_validation (s : Store) (t a : String) (amt : Int)
    (allowNeg : Bool) (r : Option String) (now : Nat) :
    (amt ≤ 0 →
      addPoints s t a amt r now = (s, .error .InvalidAmount) ∧
      removePoints s t a amt allowNeg r now =
        (s, .error .InvalidAmount)) ∧
    (1 ≤ amt →
      (addPoints s t a amt r now).2 ≠ .error .InvalidAmount ∧
      (removePoints s t a amt allowNeg r now).2 ≠
        .error .InvalidAmount) := by
  constructor
  · intro h
    simp [addPoints, removePoints, h]
  · intro h
    have h0 : ¬ amt ≤ 0 := by omega
    constructor
    · simp only [addPoints, modify_points, if_neg h0]
      simp
    · simp only [removePoints, modify_points, if_neg h0]
      split
      · simp
      · simp

/-- Witness for C2: amount 0 is rejected with `InvalidAmount` and amount 5
passes the validation. -/
theorem amount_validation_witness :
    (addPoints ⟨[], []⟩ "t" "a" 0 none 0 =
      (⟨[], []⟩, .error .InvalidAmount)) ∧
    ((addPoints ⟨[], []⟩ "t" "a" 5 none 0).2 ≠
      .error .InvalidAmount) :=
  ⟨((amount_validation ⟨[], []⟩ "t" "a" 0 false none 0).1 (by decide)).1,
   ((amount_validation ⟨[], []⟩ "t" "a" 5 false none 0).2 (by decide)).1⟩

/-- C5: a balance read for a user with no row in the balance table returns
0 as a non-error outcome. -/
theorem getUserPoints_absent_returns_zero (s : Store) (uid : String)
    (h : mapGet s.balances uid = none) :
    getUserPoints s uid = .ok 0 := by
  simp [getUserPoints, h]

/-- Witness for C5: the empty store has no row for any user, and the read
returns 0 without an error. -/
theorem getUserPoints_absent_returns_zero_witness :
    getUserPoints ⟨[], []⟩ "unknown" = .ok 0 :=
  getUserPoints_absent_returns_zero ⟨[], []⟩ "unknown" rfl

/-- C7: the audit emission of a successful modify is a function of the
action type, target, amount, executor and timestamp only; the before
balance, the after balance and the reason never influence the emitted
message. -/
theorem auditEmission_independent_of_balances_and_reason
    (ty : ActionType) (tgt : String) (amt : Int) (ex : String) (ts : Nat)
    (b1 a1 b2 a2 : Int) (r1 r2 : Option String) :
    handlerAuditEmission ty tgt amt ex ts b1 a1 r1 =
      handlerAuditEmission ty tgt amt ex ts b2 a2 r2 ∧
    handlerAuditEmission ty tgt amt ex ts b1 a1 r1 =
      auditMessage ty tgt amt ex ts :=
  ⟨rfl, rfl⟩

/-- C3: the closing-balance line of the rendered statement (the third line
from the end of the document) shows the `after_points` of the first, newest
record of the history sequence, and 0 when the sequence is empty. -/
theorem generateHistory_closing_balance (u : DUser)
    (h : List HistoryRecord) (now : Nat) :
    ((generateHistoryLines u h now).reverse)[2]? =
      some (closingBalanceLine
        (match h with
         | [] => 0
         | record :: _ => record.after_points)) := by
  simp [generateHistoryLines, List.reverse_append]

/-- C4: two statement renderings of the same user and the same history,
taken at different clock readings, agree on every line except the single
`GENERATED:` header line (line index 4); that line is the only one
depending on the clock. -/
theorem generateHistory_timestamp_only_difference (u : DUser)
    (h : List HistoryRecord) (t1 t2 : Nat) :
    (generateHistoryLines u h t1).eraseIdx 4 =
      (generateHistoryLines u h t2).eraseIdx 4 ∧
    (generateHistoryLines u h t1)[4]? = some (generatedLine t1) := by
  constructor
  · simp [generateHistoryLines, List.eraseIdx]
  · simp [generateHistoryLines]

/-- C6: the history query returns exactly the committed records whose
`target_user_id` is the requested user (so the empty sequence when there
are none), ordered newest first, that is descending by `created_at`. -/
theorem getPointsHistory_newest_first (s : Store) (uid : String) :
    List.Sorted newestFirst (getPointsHistory s uid) ∧
    (getPointsHistory s uid).Perm
      (s.history.filter (fun r => r.target_user_id == uid)) ∧
    ((∀ r ∈ s.history, r.target_user_id ≠ uid) →
      getPointsHistory s uid = []) := by
  refine ⟨List.sorted_insertionSort newestFirst _,
    List.perm_insertionSort newestFirst _, ?_⟩
  intro hnone
  have hfil : s.history.filter (fun r => r.target_user_id == uid) = [] := by
    rw [List.filter_eq_nil_iff]
    intro r hr
    simpa using hnone r hr
  simp [getPointsHistory, hfil]

/-- Witness for C6: a two-record store queried for its user yields a
sorted, permutation-correct sequence, and a store with no record for the
user yields the empty sequence. -/
theorem getPointsHistory_newest_first_witness :
    ((∀ r ∈ (Store.mk [] []).history, r.target_user_id ≠ "u") →
      getPointsHistory ⟨[], []⟩ "u" = []) ∧
    getPointsHistory ⟨[], []⟩ "u" = [] := by
  have hmain := getPointsHistory_newest_first ⟨[], []⟩ "u"
  exact ⟨hmain.2.2, hmain.2.2 (by simp)⟩

/-- C8: for an executor with point-manager permission acting on themself
and not on cooldown, the add handler and the remove handler proceed exactly
when the single shared `config.points.allowSelfAdd` flag is set; both
handlers consult that same flag and reach the same gate outcome. -/
theorem self_action_single_flag (cfg : Config) (st : CooldownState)
    (now : Nat) (e : String)
    (hmgr : isPointManager cfg e = true)
    (hcd1 : checkCooldown st now e "points_add" = 0)
    (hcd2 : checkCooldown st now e "points_remove" = 0) :
    (handleAddGate cfg st now e e = .proceed ↔
      cfg.points.allowSelfAdd = true) ∧
    (handleRemoveGate cfg st now e e = .proceed ↔
      cfg.points.allowSelfAdd = true) ∧
    handleAddGate cfg st now e e = handleRemoveGate cfg st now e e := by
  cases hflag : cfg.points.allowSelfAdd <;>
    cases hsa : isSuperAdmin cfg e <;>
      simp [handleAddGate, handleRemoveGate, canManagePoints, hflag, hsa,
        hmgr, hcd1, hcd2]

/-- Witness for C8: in the repository configuration (`allowSelfAdd` off), a
configured point manager acting on themself with no cooldown is rejected by
both handlers, matching the flag. -/
theorem self_action_single_flag_witness :
    (handleAddGate repoConfig [] 0 "1232261529752178719"
        "1232261529752178719" = .proceed ↔
      repoConfig.points.allowSelfAdd = true) ∧
    (handleRemoveGate repoConfig [] 0 "1232261529752178719"
        "1232261529752178719" = .proceed ↔
      repoConfig.points.allowSelfAdd = true) ∧
    handleAddGate repoConfig [] 0 "1232261529752178719"
        "1232261529752178719" =
      handleRemoveGate repoConfig [] 0 "1232261529752178719"
        "1232261529752178719" :=
  self_action_single_flag repoConfig [] 0 "1232261529752178719"
    (by decide) rfl rfl

/-- C9: when `config.points.allowSelfAdd` is false, no executor can carry a
points add or points remove past the pre-store gate against their own
identity, even a super admin, for whom `canManagePoints` grants every
target including themself: the handler-level self check rejects the call
first. -/
theorem self_action_blocked_when_flag_off (cfg : Config)
    (st : CooldownState) (now : Nat) (e : String)
    (hflag : cfg.points.allowSelfAdd = false) :
    (isSuperAdmin cfg e = true → canManagePoints cfg e e = true) ∧
    handleAddGate cfg st now e e ≠ .proceed ∧
    handleRemoveGate cfg st now e e ≠ .proceed := by
  refine ⟨fun hsa => by simp [canManagePoints, hsa], ?_, ?_⟩ <;>
    · simp only [handleAddGate, handleRemoveGate]
      split
      · simp
      · simp [hflag]

/-- Witness for C9: in the repository configuration, the configured super
admin passes `canManagePoints` on themself yet neither handler gate
proceeds for the self action. -/
theorem self_action_blocked_when_flag_off_witness :
    (isSuperAdmin repoConfig "1306580945419370621" = true →
      canManagePoints repoConfig "1306580945419370621"
        "1306580945419370621" = true) ∧
    handleAddGate repoConfig [] 0 "1306580945419370621"
      "1306580945419370621" ≠ .proceed ∧
    handleRemoveGate repoConfig [] 0 "1306580945419370621"
      "1306580945419370621" ≠ .proceed :=
  self_action_blocked_when_flag_off repoConfig [] 0
    "1306580945419370621" rfl

theorem checkCooldown_eq_lookup (st : CooldownState) (now : Nat)
    (u c : String) :
    checkCooldown st now u c =
      match lookupCooldown st u c with
      | none => 0
      | some e => if now < e then (e - now + 999) / 1000 else 0 := by
  unfold checkCooldown lookupCooldown
  cases mapGet st u with
  | none => rfl
  | some inner =>
    cases mapGet inner c with
    | none => rfl
    | some e => rfl

theorem lookupCooldown_setCooldown_self (st : CooldownState) (t0 : Nat)
    (u c : String) :
    lookupCooldown (setCooldown st t0 u c) u c =
      some (t0 + COOLDOWN_DURATION) := by
  unfold lookupCooldown setCooldown
  rw [mapGet_mapSet_self]
  simp [mapGet_mapSet_self]

theorem lookupCooldown_setCooldown_other (st : CooldownState) (t0 : Nat)
    (u c u' c' : String) (hne : ¬(u' = u ∧ c' = c)) :
    lookupCooldown (setCooldown st t0 u c) u' c' =
      lookupCooldown st u' c' := by
  unfold lookupCooldown setCooldown
  by_cases huu : u' = u
  · subst huu
    have hcc : c' ≠ c := fun h => hne ⟨rfl, h⟩
    rw [mapGet_mapSet_self]
    cases hu : mapGet st u' with
    | none => simp [mapGet_mapSet_ne _ _ _ _ hcc, mapGet, Ne.symm hcc]
    | some inner => simp [mapGet_mapSet_ne _ _ _ _ hcc]
  · rw [mapGet_mapSet_ne _ _ _ _ huu]

/-- C10: `checkCooldown` returns 0 when no expiration is recorded for the
(user, command) pair or the recorded expiration has passed; while a
recorded expiration is in the future it returns the remaining milliseconds
divided by 1000 and rounded up, a positive count that never exceeds 3 for
an expiration set by `setCooldown` with its 3000 ms duration; and
`setCooldown` for one (user, command) pair leaves the observable cooldown
of every other pair unchanged. -/
theorem cooldown_semantics (st : CooldownState) (now t0 : Nat)
    (u c u' c' : String) :
    (lookupCooldown st u c = none → checkCooldown st now u c = 0) ∧
    (∀ e, lookupCooldown st u c = some e →
      (e ≤ now → checkCooldown st now u c = 0) ∧
      (now < e →
        checkCooldown st now u c = (e - now + 999) / 1000 ∧
        0 < checkCooldown st now u c)) ∧
    (t0 ≤ now → checkCooldown (setCooldown st t0 u c) now u c ≤ 3) ∧
    (¬(u' = u ∧ c' = c) →
      checkCooldown (setCooldown st t0 u c) now u' c' =
        checkCooldown st now u' c') := by
  refine ⟨?_, ?_, ?_, ?_⟩
  · intro hnone
    rw [checkCooldown_eq_lookup, hnone]
  · intro e he
    constructor
    · intro hle
      rw [checkCooldown_eq_lookup, he]
      simp [Nat.not_lt.mpr hle]
    · intro hlt
      have hval : checkCooldown st now u c = (e - now + 999) / 1000 := by
        rw [checkCooldown_eq_lookup, he]
        simp [hlt]
      refine ⟨hval, ?_⟩
      rw [hval]
      have := (Nat.le_div_iff_mul_le (by omega : 0 < 1000)).mpr
        (by omega : 1 * 1000 ≤ e - now + 999)
      omega
  · intro ht0
    rw [checkCooldown_eq_lookup, lookupCooldown_setCooldown_self]
    have hle : (t0 + COOLDOWN_DURATION - now + 999) / 1000 ≤ 3 := by
      have h1 : t0 + COOLDOWN_DURATION - now + 999 ≤ 3999 := by
        unfold COOLDOWN_DURATION
        omega
      calc (t0 + COOLDOWN_DURATION - now + 999) / 1000
          ≤ 3999 / 1000 := Nat.div_le_div_right h1
        _ = 3 := by norm_num
    show (if now < t0 + COOLDOWN_DURATION then
        (t0 + COOLDOWN_DURATION - now + 999) / 1000 else 0) ≤ 3
    split
    · exact hle
    · simp
  · intro hne
    rw [checkCooldown_eq_lookup, checkCooldown_eq_lookup,
      lookupCooldown_setCooldown_other st t0 u c u' c' hne]

/-- Witness for C10: on the empty cooldown store every pair reads 0; after
`setCooldown` at time 0 the same pair reads a positive remaining count of
at most 3 and a different pair still reads 0. -/
theorem cooldown_semantics_witness :
    (lookupCooldown [] "u" "points_add" = none →
      checkCooldown [] 500 "u" "points_add" = 0) ∧
    (0 ≤ (500 : Nat) →
      checkCooldown (setCooldown [] 0 "u" "points_add") 500 "u"
        "points_add" ≤ 3) ∧
    (¬(("v" : String) = "u" ∧ ("points_add" : String) = "points_add") →
      checkCooldown (setCooldown [] 0 "u" "points_add") 500 "v"
        "points_add" = checkCooldown [] 500 "v" "points_add") := by
  have hmain := cooldown_semantics [] 500 0 "u" "points_add" "v"
    "points_add"
  exact ⟨hmain.1, hmain.2.2.1, hmain.2.2.2⟩

end StaffPoints
